import Mathlib

/-!
Shallow embedding of the NES emulator core found in `src/src/cpu.cpp` together
with the component interfaces of `src/include/bus.h`.

The CPU talks to its peripherals (PPU, APU, controllers, ROM) through abstract
interfaces (`IPPU`, `IAPU`, `IController`, `IROM`).  The embedding models a
peripheral call as an `Event` appended to a trace, and models the value
returned by a peripheral read with an oracle (`Env`).  Machine bytes are `Nat`
with explicit `% 256` truncation at the points where the C++ types truncate;
bit masks with power-of-two moduli (`& 0x7ff`, `& 7`, `& 0x1f`, `& 1`) are
written as `% 0x800`, `% 8`, `% 0x20`, `% 2`, which agree on naturals.
-/

/-- One call made by the CPU to a peripheral, as routed by `CPU::read` /
`CPU::write` in `cpu.cpp`. -/
inductive Event where
  | ppuRegwControl (v : Nat)
  | ppuRegwMask (v : Nat)
  | ppuRegwOAMAddress (v : Nat)
  | ppuRegwOAMData (v : Nat)
  | ppuRegwScroll (v : Nat)
  | ppuRegwAddress (v : Nat)
  | ppuRegwData (v : Nat)
  | ppuRegrStatus
  | ppuRegrOAMData
  | ppuRegrData
  | apuRead
  | apuWrite (v idx : Nat)
  | controllerRead (i : Nat)
  | controllerStrobe (i : Nat)
  | romReadPrg (addr : Nat)
  | romWritePrg (v addr : Nat)
deriving DecidableEq, Repr

/-- Oracle for the bytes returned by peripheral reads (`ppu->regr_status()`,
`apu->read()`, `controller[i]->read()`, `rom->read_prg(addr)`).  The byte type
of the C++ interfaces is enforced by `% 256` at the call site in `CPU.read`. -/
structure Env where
  regr_status : Nat
  regr_OAM_data : Nat
  regr_data : Nat
  apu_read : Nat
  controller_read : Nat → Nat
  read_prg : Nat → Nat

/-- The CPU of `cpu.cpp`: registers, the 2 KiB work RAM (`memory`, indexed
`0 ≤ i < 0x800`), the member flags `IRQ` and `_done`, the file-scope global
`do_NMI`, the per-instruction extra-cycle counter `result_cycle` incremented
by `addcyc()`, plus the peripheral trace, the total count of
`bus->on_cpu_tick()` calls (`ticks`) and the read oracle. -/
structure CPU where
  memory : Nat → Nat
  P : Nat
  A : Nat
  X : Nat
  Y : Nat
  SP : Nat
  PC : Nat
  IRQ : Bool
  do_NMI : Bool
  result_cycle : Nat
  ticks : Nat
  last_PC : Nat
  last_op : Nat
  _done : Bool
  events : List Event
  env : Env

/-- The 256-entry per-opcode base cycle chart `cycles` at the top of
`cpu.cpp`, transcribed row by row. -/
def cycles : List Nat :=
  [7,6,0,8,3,3,5,5,3,2,2,2,4,4,6,6,
   2,5,0,8,4,4,6,6,2,4,2,7,4,4,7,7,
   6,6,0,8,3,3,5,5,4,2,2,2,4,4,6,6,
   2,5,0,8,4,4,6,6,2,4,2,7,4,4,7,7,
   6,6,0,8,3,3,5,5,3,2,2,2,3,4,6,6,
   2,5,0,8,4,4,6,6,2,4,2,7,4,4,7,7,
   6,6,0,8,3,3,5,5,4,2,2,2,5,4,6,6,
   2,5,0,8,4,4,6,6,2,4,2,7,4,4,7,7,
   2,6,2,6,3,3,3,3,2,2,2,2,4,4,4,4,
   2,6,0,6,4,4,4,4,2,5,2,5,5,5,5,5,
   2,6,2,6,3,3,3,3,2,2,2,2,4,4,4,4,
   2,5,0,5,4,4,4,4,2,4,2,4,4,4,4,4,
   2,6,2,8,3,3,5,5,2,2,2,2,4,4,6,6,
   2,5,0,8,4,4,6,6,2,4,2,7,4,4,7,7,
   2,6,2,8,3,3,5,5,2,2,2,2,4,4,6,6,
   2,5,0,8,4,4,6,6,2,4,2,7,4,4,7,7]

/-- Modelled from the spec: the canonical 6502 per-opcode base cycle table
("Per-opcode base cycle cost matches the canonical 6502 table"), transcribed
independently from the standard 6502 opcode matrix, documented opcodes plus
the stable unofficial ones (SLO, RLA, SRE, RRA, SAX, LAX, DCP, ISC, ANC, ALR,
ARR, XAA, AXS, LAS, AHX, TAS, SHY, SHX and the extra NOPs), with 0 for the
halting KIL opcodes and without page-cross or branch penalties. -/
def canonical_cycles : List Nat :=
  [7,6,0,8,3,3,5,5,3,2,2,2,4,4,6,6,
   2,5,0,8,4,4,6,6,2,4,2,7,4,4,7,7,
   6,6,0,8,3,3,5,5,4,2,2,2,4,4,6,6,
   2,5,0,8,4,4,6,6,2,4,2,7,4,4,7,7,
   6,6,0,8,3,3,5,5,3,2,2,2,3,4,6,6,
   2,5,0,8,4,4,6,6,2,4,2,7,4,4,7,7,
   6,6,0,8,3,3,5,5,4,2,2,2,5,4,6,6,
   2,5,0,8,4,4,6,6,2,4,2,7,4,4,7,7,
   2,6,2,6,3,3,3,3,2,2,2,2,4,4,4,4,
   2,6,0,6,4,4,4,4,2,5,2,5,5,5,5,5,
   2,6,2,6,3,3,3,3,2,2,2,2,4,4,4,4,
   2,5,0,5,4,4,4,4,2,4,2,4,4,4,4,4,
   2,6,2,8,3,3,5,5,2,2,2,2,4,4,6,6,
   2,5,0,8,4,4,6,6,2,4,2,7,4,4,7,7,
   2,6,2,8,3,3,5,5,2,2,2,2,4,4,6,6,
   2,5,0,8,4,4,6,6,2,4,2,7,4,4,7,7]

/-- Append one peripheral call to the trace. -/
def logEvent (s : CPU) (e : Event) : CPU :=
  { s with events := s.events ++ [e] }

/-- `CPU::read` of `cpu.cpp`: work RAM below `$2000` (mirrored every `$0800`),
PPU registers below `$4000` (address masked to 3 bits; only `$2002`, `$2004`,
`$2007` are readable, the rest return 0), APU/controller I/O below `$4020`
(only `$4015`, `$4016`, `$4017` are mapped, the rest return 0), and the
cartridge above. -/
def CPU.read (s : CPU) (addr : Nat) : Nat × CPU :=
  if addr < 0x2000 then
    (s.memory (addr % 0x800), s)
  else if addr < 0x4000 then
    if addr % 8 = 2 then (s.env.regr_status % 256, logEvent s .ppuRegrStatus)
    else if addr % 8 = 4 then (s.env.regr_OAM_data % 256, logEvent s .ppuRegrOAMData)
    else if addr % 8 = 7 then (s.env.regr_data % 256, logEvent s .ppuRegrData)
    else (0, s)
  else if addr < 0x4020 then
    if addr % 0x20 = 0x15 then (s.env.apu_read % 256, logEvent s .apuRead)
    else if addr % 0x20 = 0x16 then (s.env.controller_read 0 % 256, logEvent s (.controllerRead 0))
    else if addr % 0x20 = 0x17 then (s.env.controller_read 1 % 256, logEvent s (.controllerRead 1))
    else (0, s)
  else
    (s.env.read_prg addr % 256, logEvent s (.romReadPrg addr))

/-- The `case 0x14` loop of `CPU::write`:
`for i in 0..255: ppu->regw_OAM_data(read((value & 7) * 0x100 + i))`.
`page` is `value & 7`. -/
def CPU.oam_dma (s : CPU) (page : Nat) : CPU :=
  (List.range 256).foldl
    (fun t i =>
      let r := t.read (page * 0x100 + i)
      logEvent r.2 (.ppuRegwOAMData r.1)) s

/-- `CPU::write` of `cpu.cpp`: work RAM below `$2000` (mirrored), PPU
registers below `$4000` (all but `$2002` writable), the `$4014` OAM DMA loop,
the `$4016` controller strobe (`controller[value & 1]->strobe()`), the APU
default case below `$4020`, and the cartridge above.  `v` models the
`uint8_t value` parameter, truncated at entry. -/
def CPU.write (v addr : Nat) (s : CPU) : CPU :=
  if addr < 0x2000 then
    { s with memory := fun i => if i = addr % 0x800 then v % 256 else s.memory i }
  else if addr < 0x4000 then
    if addr % 8 = 0 then logEvent s (.ppuRegwControl (v % 256))
    else if addr % 8 = 1 then logEvent s (.ppuRegwMask (v % 256))
    else if addr % 8 = 3 then logEvent s (.ppuRegwOAMAddress (v % 256))
    else if addr % 8 = 4 then logEvent s (.ppuRegwOAMData (v % 256))
    else if addr % 8 = 5 then logEvent s (.ppuRegwScroll (v % 256))
    else if addr % 8 = 6 then logEvent s (.ppuRegwAddress (v % 256))
    else if addr % 8 = 7 then logEvent s (.ppuRegwData (v % 256))
    else s
  else if addr < 0x4020 then
    if addr % 0x20 = 0x14 then s.oam_dma (v % 256 % 8)
    else if addr % 0x20 = 0x16 then logEvent s (.controllerStrobe (v % 256 % 2))
    else logEvent s (.apuWrite (v % 256) (addr % 0x20))
  else
    logEvent s (.romWritePrg (v % 256) addr)

/-- `CPU::push`: `memory[0x100 + SP--] = x` with the `uint8_t` stack pointer
wrapping modulo 256. -/
def CPU.push (s : CPU) (x : Nat) : CPU :=
  { s with
    memory := fun i => if i = 0x100 + s.SP then x % 256 else s.memory i,
    SP := (s.SP + 255) % 256 }

/-- `CPU::push2`: high byte first, then low byte. -/
def CPU.push2 (s : CPU) (x : Nat) : CPU :=
  (s.push ((x >>> 8) % 256)).push (x % 256)

/-- `CPU::pull`: `return memory[++SP + 0x100]`. -/
def CPU.pull (s : CPU) : Nat × CPU :=
  (s.memory (0x100 + (s.SP + 1) % 256), { s with SP := (s.SP + 1) % 256 })

/-- `CPU::pull2`: low byte first, then high byte, combined with `lo | hi << 8`. -/
def CPU.pull2 (s : CPU) : Nat × CPU :=
  let r := s.pull
  let r2 := r.2.pull
  (r.1 ||| (r2.1 <<< 8), r2.2)

/-- Modelled from the spec: `stack_push<&CPU::ProcStatus>()` is declared in
`cpu.h`, which is not under `src/`.  Per the spec, interrupt entry pushes P
with B (bit 4) = 0, and bit 5 is always observed as 1 when pushed. -/
def CPU.pushProcStatus (s : CPU) : CPU :=
  s.push ((s.P &&& 0xEF) ||| 0x20)

/-- `CPU::pull_NMI`: sets the file-scope global `do_NMI`. -/
def CPU.pull_NMI (s : CPU) : CPU :=
  { s with do_NMI := true }

/-- `CPU::pull_IRQ`. -/
def CPU.pull_IRQ (s : CPU) : CPU :=
  { s with IRQ := true }

/-- `CPU::release_IRQ`. -/
def CPU.release_IRQ (s : CPU) : CPU :=
  { s with IRQ := false }

/-- The cycle charge of one `CPU::run` loop iteration (`cpu.cpp` lines
177-181): `bus->on_cpu_tick()` is called `cycles[last_op] + result_cycle`
times, then `result_cycle` is reset to 0.  The modelled I flag constant is
bit 2 of P, per the spec flag layout N,V,—,B,D,I,Z,C. -/
def CPU.advanceStep (s : CPU) : CPU :=
  { s with
    ticks := s.ticks + (cycles.getD s.last_op 0 + s.result_cycle),
    result_cycle := 0 }

/-- The interrupt check at the bottom of the `CPU::run` loop (`cpu.cpp` lines
187-201): first, if the member `IRQ` is held and the I flag (bit 2 of P) is
clear, service an IRQ (push PC, push P, set I, load PC from `$FFFE/$FFFF`);
otherwise, if the global `do_NMI` is latched, clear it and service an NMI
(push PC, push P, load PC from `$FFFA/$FFFB` — the I flag is not touched). -/
def CPU.interruptStep (s : CPU) : CPU :=
  if s.IRQ = true ∧ s.P &&& 4 = 0 then
    let s1 := (s.push2 s.PC).pushProcStatus
    let s2 := { s1 with P := s1.P ||| 4 }
    let r1 := s2.read 0xfffe
    let r2 := r1.2.read 0xffff
    { r2.2 with PC := r1.1 ||| (r2.1 <<< 8) }
  else if s.do_NMI = true then
    let s0 := { s with do_NMI := false }
    let s1 := (s0.push2 s0.PC).pushProcStatus
    let r1 := s1.read 0xfffa
    let r2 := r1.2.read 0xfffb
    { r2.2 with PC := r1.1 ||| (r2.1 <<< 8) }
  else s

/-- The snapshot type `CPU_state` of `cpu.cpp`: the 2 KiB work RAM and the
registers P, A, X, Y, SP, PC — nothing else. -/
structure CPU_state where
  memory : Nat → Nat
  P : Nat
  A : Nat
  X : Nat
  Y : Nat
  SP : Nat
  PC : Nat

/-- `CPU::get_state`: copy the 0x800 RAM bytes (cast to `uint8_t`) and the
six registers into a fresh snapshot. -/
def CPU.get_state (s : CPU) : CPU_state :=
  { memory := fun i => s.memory i % 256,
    P := s.P, A := s.A, X := s.X, Y := s.Y, SP := s.SP, PC := s.PC }

/-- `CPU::restore_state`: copy the 0x800 RAM bytes and the six registers back
from the snapshot; no other member is assigned. -/
def CPU.restore_state (t : CPU) (st : CPU_state) : CPU :=
  { t with
    memory := fun i => if i < 0x800 then st.memory i else t.memory i,
    P := st.P, A := st.A, X := st.X, Y := st.Y, SP := st.SP, PC := st.PC }

/-- The work-RAM initialisation in the `CPU::CPU` constructor: five bytes are
preset, the rest of the state is whatever it already was. -/
def CPU.init (base : CPU) : CPU :=
  { base with
    memory := fun i =>
      if i = 0x008 then 0xf7
      else if i = 0x009 then 0xef
      else if i = 0x00a then 0xdf
      else if i = 0x00f then 0xbf
      else if i = 0x1fc then 0x69
      else base.memory i }

/-- An oracle whose PRG reads all return `0xAA` and whose other reads return 0. -/
def env0 : Env :=
  { regr_status := 0, regr_OAM_data := 0, regr_data := 0, apu_read := 0,
    controller_read := fun _ => 0, read_prg := fun _ => 0xAA }

/-- An oracle that distinguishes the IRQ vector `$FFFE/$FFFF` (`$1234`) from
the NMI vector `$FFFA/$FFFB` (`$5678`). -/
def envVec : Env :=
  { regr_status := 0, regr_OAM_data := 0, regr_data := 0, apu_read := 0,
    controller_read := fun _ => 0,
    read_prg := fun a =>
      if a = 0xfffe then 0x34 else if a = 0xffff then 0x12
      else if a = 0xfffa then 0x78 else if a = 0xfffb then 0x56 else 0 }

/-- A concrete CPU state over a given oracle: zeroed RAM and registers,
`SP = $FD`, no pending interrupts, empty trace. -/
def mkCPU (e : Env) : CPU :=
  { memory := fun _ => 0, P := 0, A := 0, X := 0, Y := 0, SP := 0xFD, PC := 0,
    IRQ := false, do_NMI := false, result_cycle := 0, ticks := 0,
    last_PC := 0, last_op := 0, _done := false, events := [], env := e }

/-- Base concrete state used by witnesses. -/
def cpu0 : CPU := mkCPU env0

/-- Concrete state with both an IRQ held and an NMI latched, I flag clear. -/
def irqCPU : CPU := { mkCPU envVec with IRQ := true, do_NMI := true, PC := 0xABCD }

/-- Concrete state with only an NMI latched. -/
def nmiCPU : CPU := { mkCPU envVec with do_NMI := true, PC := 0xABCD }

/-- Concrete state for the cycle-advance witness: two penalty cycles pending. -/
def c3CPU : CPU := { mkCPU env0 with result_cycle := 2, last_op := 0xB1, ticks := 10 }

theorem byte_lor_shift (a b : Nat) (ha : a < 256) : a ||| (b <<< 8) = 256 * b + a := by
  rw [Nat.lor_comm, Nat.shiftLeft_eq, Nat.mul_comm b (2 ^ 8)]
  exact (Nat.mul_add_lt_is_or (by norm_num at ha ⊢; omega) b).symm

theorem dma_fold_spec (page : Nat) :
    ∀ (l : List Nat), (∀ j ∈ l, page * 0x100 + j < 0x800) → ∀ s : CPU,
      l.foldl (fun t i =>
        let r := t.read (page * 0x100 + i)
        logEvent r.2 (.ppuRegwOAMData r.1)) s
      = { s with events := s.events ++ l.map (fun j => Event.ppuRegwOAMData (s.memory (page * 0x100 + j))) } := by
  intro l
  induction l with
  | nil => intro _ s; simp
  | cons a as ih =>
    intro hl s
    have ha : page * 0x100 + a < 0x800 := hl a (by simp)
    have hread : s.read (page * 0x100 + a) = (s.memory (page * 0x100 + a), s) := by
      unfold CPU.read
      rw [if_pos (by omega), Nat.mod_eq_of_lt ha]
    rw [List.foldl_cons]
    simp only [hread]
    rw [ih (fun j hj => hl j (by simp [hj]))]
    simp [logEvent, List.append_assoc]

theorem oam_dma_spec (s : CPU) (page : Nat) (hp : page < 8) :
    s.oam_dma page = { s with events := s.events ++ (List.range 256).map (fun j => Event.ppuRegwOAMData (s.memory (page * 0x100 + j))) } := by
  unfold CPU.oam_dma
  exact dma_fold_spec page (List.range 256)
    (fun j hj => by have := List.mem_range.mp hj; omega) s

theorem write_4014 (v : Nat) (s : CPU) : CPU.write v 0x4014 s = s.oam_dma (v % 256 % 8) := by
  unfold CPU.write
  norm_num

set_option maxRecDepth 4096 in
/-- C1 (counterexample): writing `$80` to `$4014` must, per the claim, copy the
256 bytes at `value<<8 = $8000..` (all `0xAA` under the `cpu0` oracle) and
stall the CPU by 513 or 514 cycles.  The code instead reads work-RAM page
`value & 7 = 0` (all zero), so the first OAM byte transferred is `0`, not the
`0xAA` that a bus read of `$8000` returns, and no stall cycles are charged at
all (`ticks` stays 0). -/
theorem claim_C1_counterexample :
    (CPU.write 0x80 0x4014 cpu0).events.head? = some (Event.ppuRegwOAMData 0)
    ∧ (cpu0.read 0x8000).1 = 0xAA
    ∧ (0 : Nat) ≠ 0xAA
    ∧ (CPU.write 0x80 0x4014 cpu0).ticks = 0 := by
  refine ⟨by decide, by decide, by decide, by decide⟩

/-- C1 (amended): writing byte `v` to `$4014` performs OAM DMA from work-RAM
page `v & 7` — it emits exactly 256 `OAMDATA` writes carrying the bytes at
addresses `(v & 7)*0x100 .. (v & 7)*0x100 + 255`, read via the normal bus
read (which for these addresses is always internal RAM) — and does not stall
the CPU: no `bus->on_cpu_tick()` call and no extra cycle is charged, and no
CPU register or RAM byte changes. -/
theorem claim_C1_amended (s : CPU) (v i : Nat) :
    (CPU.write v 0x4014 s).events = s.events ++ (List.range 256).map (fun j => Event.ppuRegwOAMData (s.memory (v % 8 * 0x100 + j)))
    ∧ (CPU.write v 0x4014 s).memory i = s.memory i
    ∧ (CPU.write v 0x4014 s).ticks = s.ticks
    ∧ (CPU.write v 0x4014 s).result_cycle = s.result_cycle
    ∧ (CPU.write v 0x4014 s).PC = s.PC
    ∧ (CPU.write v 0x4014 s).SP = s.SP
    ∧ (CPU.write v 0x4014 s).P = s.P
    ∧ (CPU.write v 0x4014 s).do_NMI = s.do_NMI := by
  have h8 : v % 256 % 8 = v % 8 := Nat.mod_mod_of_dvd v (by norm_num)
  rw [write_4014, h8, oam_dma_spec s (v % 8) (by omega)]
  exact ⟨rfl, rfl, rfl, rfl, rfl, rfl, rfl, rfl⟩

theorem push_P (s : CPU) (x : Nat) : (s.push x).P = s.P := rfl

theorem push_SP (s : CPU) (x : Nat) : (s.push x).SP = (s.SP + 255) % 256 := rfl

theorem push_PC (s : CPU) (x : Nat) : (s.push x).PC = s.PC := rfl

theorem push_IRQ (s : CPU) (x : Nat) : (s.push x).IRQ = s.IRQ := rfl

theorem push_do_NMI (s : CPU) (x : Nat) : (s.push x).do_NMI = s.do_NMI := rfl

theorem push_ticks (s : CPU) (x : Nat) : (s.push x).ticks = s.ticks := rfl

theorem push_rc (s : CPU) (x : Nat) : (s.push x).result_cycle = s.result_cycle := rfl

theorem push_env (s : CPU) (x : Nat) : (s.push x).env = s.env := rfl

theorem push_mem (s : CPU) (x i : Nat) : (s.push x).memory i = if i = 0x100 + s.SP then x % 256 else s.memory i := rfl

theorem log_P (s : CPU) (e : Event) : (logEvent s e).P = s.P := rfl

theorem log_SP (s : CPU) (e : Event) : (logEvent s e).SP = s.SP := rfl

theorem log_PC (s : CPU) (e : Event) : (logEvent s e).PC = s.PC := rfl

theorem log_do_NMI (s : CPU) (e : Event) : (logEvent s e).do_NMI = s.do_NMI := rfl

theorem log_ticks (s : CPU) (e : Event) : (logEvent s e).ticks = s.ticks := rfl

theorem log_rc (s : CPU) (e : Event) : (logEvent s e).result_cycle = s.result_cycle := rfl

theorem log_env (s : CPU) (e : Event) : (logEvent s e).env = s.env := rfl

theorem log_mem (s : CPU) (e : Event) (i : Nat) : (logEvent s e).memory i = s.memory i := rfl

theorem log_IRQ (s : CPU) (e : Event) : (logEvent s e).IRQ = s.IRQ := rfl

theorem read_rom (s : CPU) (a : Nat) (h : 0x4020 ≤ a) :
    s.read a = (s.env.read_prg a % 256, logEvent s (.romReadPrg a)) := by
  unfold CPU.read
  rw [if_neg (by omega), if_neg (by omega), if_neg (by omega)]

set_option maxRecDepth 8192 in
theorem interruptStep_irq_facts (s : CPU) (hSP : s.SP < 256) (hI : s.IRQ = true) (hP : s.P &&& 4 = 0) :
      (s.interruptStep).PC = (s.env.read_prg 0xfffe % 256) ||| ((s.env.read_prg 0xffff % 256) <<< 8)
      ∧ (s.interruptStep).P = (s.P ||| 4)
      ∧ (s.interruptStep).do_NMI = s.do_NMI
      ∧ (s.interruptStep).ticks = s.ticks
      ∧ (s.interruptStep).result_cycle = s.result_cycle
      ∧ (s.interruptStep).SP = (s.SP + 253) % 256
      ∧ (s.interruptStep).memory (0x100 + s.SP) = (s.PC >>> 8) % 256
      ∧ (s.interruptStep).memory (0x100 + (s.SP + 255) % 256) = s.PC % 256
      ∧ (s.interruptStep).memory (0x100 + (s.SP + 254) % 256) = ((s.P &&& 0xEF) ||| 0x20) % 256 := by
  unfold CPU.interruptStep
  rw [if_pos (And.intro hI hP)]
  simp only [CPU.push2, CPU.pushProcStatus]
  rw [read_rom _ 0xfffe (by norm_num)]
  simp only []
  rw [read_rom _ 0xffff (by norm_num)]
  simp only [push_P, push_SP, push_PC, push_IRQ, push_do_NMI, push_ticks, push_rc, push_env,
    push_mem, log_P, log_SP, log_PC, log_do_NMI, log_ticks, log_rc, log_env, log_mem, log_IRQ]
  refine ⟨trivial, trivial, trivial, trivial, trivial, by omega, ?_, ?_, ?_⟩
  · split_ifs <;> omega
  · split_ifs <;> omega
  · split_ifs <;> omega

set_option maxRecDepth 8192 in
theorem interruptStep_nmi_facts (s : CPU) (hSP : s.SP < 256)
    (hno : ¬(s.IRQ = true ∧ s.P &&& 4 = 0)) (hN : s.do_NMI = true) :
      (s.interruptStep).PC = (s.env.read_prg 0xfffa % 256) ||| ((s.env.read_prg 0xfffb % 256) <<< 8)
      ∧ (s.interruptStep).P = s.P
      ∧ (s.interruptStep).do_NMI = false
      ∧ (s.interruptStep).ticks = s.ticks
      ∧ (s.interruptStep).result_cycle = s.result_cycle
      ∧ (s.interruptStep).SP = (s.SP + 253) % 256
      ∧ (s.interruptStep).memory (0x100 + s.SP) = (s.PC >>> 8) % 256
      ∧ (s.interruptStep).memory (0x100 + (s.SP + 255) % 256) = s.PC % 256
      ∧ (s.interruptStep).memory (0x100 + (s.SP + 254) % 256) = ((s.P &&& 0xEF) ||| 0x20) % 256 := by
  unfold CPU.interruptStep
  rw [if_neg hno, if_pos hN]
  simp only [CPU.push2, CPU.pushProcStatus]
  rw [read_rom _ 0xfffa (by norm_num)]
  simp only []
  rw [read_rom _ 0xfffb (by norm_num)]
  simp only [push_P, push_SP, push_PC, push_IRQ, push_do_NMI, push_ticks, push_rc, push_env,
    push_mem, log_P, log_SP, log_PC, log_do_NMI, log_ticks, log_rc, log_env, log_mem, log_IRQ]
  refine ⟨trivial, trivial, trivial, trivial, trivial, by omega, ?_, ?_, ?_⟩
  · split_ifs <;> omega
  · split_ifs <;> omega
  · split_ifs <;> omega

/-- C2 (counterexample): in `irqCPU` both an IRQ and an NMI are pending and
the I flag is clear; the claim says the NMI is serviced first (so PC would be
loaded from `$FFFA/$FFFB = $5678` and the NMI latch cleared).  The code's
loop checks `IRQ` first: PC is loaded from `$FFFE/$FFFF = $1234` and the NMI
latch stays set.  Moreover no 7 cycles are charged (`ticks` stays 0). -/
theorem claim_C2_counterexample :
    (irqCPU.interruptStep).PC = 0x1234
    ∧ (irqCPU.interruptStep).do_NMI = true
    ∧ (0x1234 : Nat) ≠ 0x5678
    ∧ (irqCPU.interruptStep).ticks = 0 := by
  refine ⟨by decide, by decide, by decide, by decide⟩

/-- C2 (amended): at the bottom of each `CPU::run` iteration the interrupt
check runs; a held IRQ with I flag (bit 2 of P) clear is serviced first —
push PC, push P (B clear, bit 5 set), set I, load PC from `$FFFE/$FFFF`;
only otherwise is a latched NMI serviced — clear the latch, push PC, push P,
load PC from `$FFFA/$FFFB`, leaving the I flag unchanged.  IRQ has priority
over NMI, and servicing charges no cycles (`bus->on_cpu_tick` is not called
and `result_cycle` is untouched). -/
theorem claim_C2_amended (s : CPU) (hSP : s.SP < 256) :
    (s.IRQ = true → s.P &&& 4 = 0 →
      (s.interruptStep).PC = (s.env.read_prg 0xfffe % 256) ||| ((s.env.read_prg 0xffff % 256) <<< 8)
      ∧ (s.interruptStep).P = (s.P ||| 4)
      ∧ (s.interruptStep).do_NMI = s.do_NMI
      ∧ (s.interruptStep).ticks = s.ticks
      ∧ (s.interruptStep).result_cycle = s.result_cycle
      ∧ (s.interruptStep).SP = (s.SP + 253) % 256
      ∧ (s.interruptStep).memory (0x100 + s.SP) = (s.PC >>> 8) % 256
      ∧ (s.interruptStep).memory (0x100 + (s.SP + 255) % 256) = s.PC % 256
      ∧ (s.interruptStep).memory (0x100 + (s.SP + 254) % 256) = ((s.P &&& 0xEF) ||| 0x20) % 256)
    ∧ (¬(s.IRQ = true ∧ s.P &&& 4 = 0) → s.do_NMI = true →
      (s.interruptStep).PC = (s.env.read_prg 0xfffa % 256) ||| ((s.env.read_prg 0xfffb % 256) <<< 8)
      ∧ (s.interruptStep).P = s.P
      ∧ (s.interruptStep).do_NMI = false
      ∧ (s.interruptStep).ticks = s.ticks
      ∧ (s.interruptStep).result_cycle = s.result_cycle
      ∧ (s.interruptStep).SP = (s.SP + 253) % 256
      ∧ (s.interruptStep).memory (0x100 + s.SP) = (s.PC >>> 8) % 256
      ∧ (s.interruptStep).memory (0x100 + (s.SP + 255) % 256) = s.PC % 256
      ∧ (s.interruptStep).memory (0x100 + (s.SP + 254) % 256) = ((s.P &&& 0xEF) ||| 0x20) % 256) :=
  ⟨fun hI hP => interruptStep_irq_facts s hSP hI hP,
   fun hno hN => interruptStep_nmi_facts s hSP hno hN⟩

/-- C2 (witness): the amended theorem applied to the concrete state `nmiCPU`
(NMI latched, no IRQ): the NMI vector `$5678` is loaded and the latch
cleared. -/
theorem claim_C2_amended_witness :
    (nmiCPU.interruptStep).PC = 0x5678
    ∧ (nmiCPU.interruptStep).do_NMI = false
    ∧ (nmiCPU.interruptStep).ticks = 0 := by
  have h := (claim_C2_amended nmiCPU (by norm_num [nmiCPU, mkCPU])).2 (by decide) (by decide)
  refine ⟨?_, h.2.2.1, ?_⟩
  · rw [h.1]; decide
  · rw [h.2.2.2.1]; rfl

/-- C3: per executed instruction, `bus->on_cpu_tick()` is called exactly
`cycles[last_op] + result_cycle` times and `result_cycle` is then reset; the
256-entry source table equals the canonical 6502 cycle table entry for entry.
The identification of `result_cycle` with `page_cross_penalty +
branch_penalty` is modelled from the spec: the opcode bodies that call
`addcyc()` live in `cpu.h`, which is not under `src/`. -/
theorem claim_C3 (s : CPU) (pcp bp : Nat) (h : s.result_cycle = pcp + bp) :
    cycles = canonical_cycles
    ∧ (s.advanceStep).ticks = s.ticks + (canonical_cycles.getD s.last_op 0 + (pcp + bp))
    ∧ (s.advanceStep).result_cycle = 0 := by
  refine ⟨rfl, ?_, rfl⟩
  show s.ticks + (cycles.getD s.last_op 0 + s.result_cycle) = _
  rw [h]
  rfl

/-- C3 (witness): the cycle-advance theorem at the concrete state `c3CPU`
(opcode `$B1`, one page-cross penalty and one branch penalty pending). -/
theorem claim_C3_witness :
    cycles = canonical_cycles
    ∧ (c3CPU.advanceStep).ticks = c3CPU.ticks + (canonical_cycles.getD c3CPU.last_op 0 + (1 + 1))
    ∧ (c3CPU.advanceStep).result_cycle = 0 :=
  claim_C3 c3CPU 1 1 rfl

/-- C4 (counterexample): per the claim, writing a value with bit 0 set should
reload both controllers from live buttons.  Writing `1` to `$4016` in the
code produces a single peripheral call — `controller[1]->strobe()` — and
controller 0 receives nothing; writing `0` strobes controller 0 instead.
Bit 0 selects which controller is strobed; it is not delivered as a strobe
level (the `IController::strobe()` interface takes no argument). -/
theorem claim_C4_counterexample :
    (CPU.write 1 0x4016 cpu0).events = [Event.controllerStrobe 1]
    ∧ (CPU.write 0 0x4016 cpu0).events = [Event.controllerStrobe 0]
    ∧ Event.controllerStrobe 1 ≠ Event.controllerStrobe 0 := by
  refine ⟨by decide, by decide, by decide⟩

/-- C4 (amended): writing byte `v` to `$4016` calls `strobe()` on
`controller[v & 1]` — bit 0 of the value selects the controller, no strobe
level is passed — and nothing else; each read of `$4016` (resp. `$4017`)
returns one byte from `controller[0]->read()` (resp. `controller[1]->read()`).
The per-read shift-register order is inside the controller implementation,
which is not part of `src/`. -/
theorem claim_C4_amended (s : CPU) (v : Nat) :
    CPU.write v 0x4016 s = logEvent s (.controllerStrobe (v % 2))
    ∧ (s.read 0x4016).1 = s.env.controller_read 0 % 256
    ∧ (s.read 0x4016).2 = logEvent s (.controllerRead 0)
    ∧ (s.read 0x4017).1 = s.env.controller_read 1 % 256
    ∧ (s.read 0x4017).2 = logEvent s (.controllerRead 1) := by
  refine ⟨?_, ?_, ?_, ?_, ?_⟩
  · unfold CPU.write
    norm_num
  · unfold CPU.read; norm_num
  · unfold CPU.read; norm_num
  · unfold CPU.read; norm_num
  · unfold CPU.read; norm_num

/-- C5: a write to `$0000–$1FFF` lands in the 2 KiB work RAM and any later
read of an address in that range congruent modulo `$0800` (including the
written address itself) returns the written byte. -/
theorem claim_C5 (s : CPU) (v addr addr2 : Nat) (h1 : addr < 0x2000) (h2 : addr2 < 0x2000)
    (h3 : addr2 % 0x800 = addr % 0x800) (hv : v < 256) :
    ((CPU.write v addr s).read addr2).1 = v := by
  unfold CPU.write CPU.read
  rw [if_pos h1, if_pos h2]
  simp only []
  rw [if_pos h3]
  exact Nat.mod_eq_of_lt hv

/-- C5 (witness): write `$42` to `$0123`, read it back through the mirror at
`$0923`. -/
theorem claim_C5_witness :
    (0x123 : Nat) < 0x2000 ∧ (0x923 : Nat) < 0x2000
    ∧ (0x923 : Nat) % 0x800 = 0x123 % 0x800 ∧ (0x42 : Nat) < 256
    ∧ ((CPU.write 0x42 0x123 cpu0).read 0x923).1 = 0x42 :=
  ⟨by norm_num, by norm_num, by norm_num, by norm_num,
   claim_C5 cpu0 0x42 0x123 0x923 (by norm_num) (by norm_num) (by norm_num) (by norm_num)⟩

/-- C6: reads of the unmapped I/O range `$4000–$4014` (everything in
`$4000–$4015` except the APU status read at `$4015`) and reads of write-only
PPU register mirrors in `$2000–$3FFF` (`addr & 7` not 2, 4 or 7) return 0 and
leave the machine state unchanged (no peripheral is called). -/
theorem claim_C6 (s : CPU) (addr : Nat) :
    (0x4000 ≤ addr → addr ≤ 0x4014 → (s.read addr).1 = 0 ∧ (s.read addr).2 = s)
    ∧ (0x2000 ≤ addr → addr < 0x4000 → addr % 8 ≠ 2 → addr % 8 ≠ 4 → addr % 8 ≠ 7 →
        (s.read addr).1 = 0 ∧ (s.read addr).2 = s) := by
  constructor
  · intro h1 h2
    unfold CPU.read
    rw [if_neg (by omega), if_neg (by omega), if_pos (by omega),
        if_neg (by omega), if_neg (by omega), if_neg (by omega)]
    exact ⟨rfl, rfl⟩
  · intro h1 h2 h3 h4 h5
    unfold CPU.read
    rw [if_neg (by omega), if_pos (by omega), if_neg h3, if_neg h4, if_neg h5]
    exact ⟨rfl, rfl⟩

/-- C6 (witness): the bad-read theorem at `$4008` (unmapped I/O) and `$2005`
(write-only PPU scroll register). -/
theorem claim_C6_witness :
    ((cpu0.read 0x4008).1 = 0 ∧ (cpu0.read 0x4008).2 = cpu0)
    ∧ ((cpu0.read 0x2005).1 = 0 ∧ (cpu0.read 0x2005).2 = cpu0) :=
  ⟨(claim_C6 cpu0 0x4008).1 (by norm_num) (by norm_num),
   (claim_C6 cpu0 0x2005).2 (by norm_num) (by norm_num) (by norm_num) (by norm_num) (by norm_num)⟩

theorem push2_SP (s : CPU) (x : Nat) : (s.push2 x).SP = ((s.SP + 255) % 256 + 255) % 256 := rfl

theorem push2_mem (s : CPU) (x i : Nat) : (s.push2 x).memory i = if i = 0x100 + (s.SP + 255) % 256 then x % 256 % 256 else if i = 0x100 + s.SP then (x >>> 8) % 256 % 256 else s.memory i := rfl

theorem pull_eq (s : CPU) : s.pull = (s.memory (0x100 + (s.SP + 1) % 256), { s with SP := (s.SP + 1) % 256 }) := rfl

theorem pull2_eq (s : CPU) : s.pull2 = (s.memory (0x100 + (s.SP + 1) % 256) ||| (s.memory (0x100 + ((s.SP + 1) % 256 + 1) % 256) <<< 8), { s with SP := ((s.SP + 1) % 256 + 1) % 256 }) := rfl

set_option maxRecDepth 8192 in
/-- C7: the stack pointer always stays below 256: `push` stores the byte at
`$0100+SP` and decrements SP modulo 256, `pull` increments SP modulo 256 and
returns the byte at `$0100+SP`; `pull` after `push` returns the pushed byte
with SP restored, `pull2` after `push2` returns the pushed 16-bit value with
SP restored, and none of them touches memory outside `$0100–$01FF`. -/
theorem claim_C7 (s : CPU) (x i : Nat) (hSP : s.SP < 256) (hi : i < 0x100 ∨ 0x200 ≤ i) :
    (s.push x).SP = (s.SP + 255) % 256
    ∧ (s.push x).SP < 256
    ∧ (s.push x).memory (0x100 + s.SP) = x % 256
    ∧ (s.pull).2.SP = (s.SP + 1) % 256
    ∧ (s.pull).2.SP < 256
    ∧ (s.pull).1 = s.memory (0x100 + (s.SP + 1) % 256)
    ∧ ((s.push x).pull).1 = x % 256
    ∧ ((s.push x).pull).2.SP = s.SP
    ∧ ((s.push2 x).pull2).1 = x % 65536
    ∧ ((s.push2 x).pull2).2.SP = s.SP
    ∧ (s.push x).memory i = s.memory i
    ∧ (s.push2 x).memory i = s.memory i
    ∧ (s.pull).2.memory i = s.memory i
    ∧ (s.pull2).2.memory i = s.memory i := by
  refine ⟨rfl, ?_, ?_, rfl, ?_, rfl, ?_, ?_, ?_, ?_, ?_, ?_, rfl, rfl⟩
  · rw [push_SP]; omega
  · rw [push_mem, if_pos rfl]
  · show (s.SP + 1) % 256 < 256; omega
  · rw [pull_eq (s.push x)]
    simp only [push_SP, push_mem]
    split_ifs with h
    · omega
    · exact absurd (by omega) h
  · rw [pull_eq (s.push x)]
    simp only [push_SP]
    omega
  · rw [pull2_eq (s.push2 x)]
    simp only [push2_SP, push2_mem]
    split_ifs <;> first | omega | (rw [byte_lor_shift _ _ (by omega)]; omega)
  · rw [pull2_eq (s.push2 x)]
    show ((((s.SP + 255) % 256 + 255) % 256 + 1) % 256 + 1) % 256 = s.SP
    omega
  · rw [push_mem]
    split_ifs with h
    · omega
    · rfl
  · rw [push2_mem]
    split_ifs <;> omega

/-- C7 (witness): the stack theorem at the concrete state `cpu0`
(`SP = $FD`), pushed value `$1234`, untouched index 0. -/
theorem claim_C7_witness :
    (cpu0.push 0x1234).SP = (cpu0.SP + 255) % 256
    ∧ (cpu0.push 0x1234).SP < 256
    ∧ (cpu0.push 0x1234).memory (0x100 + cpu0.SP) = 0x1234 % 256
    ∧ (cpu0.pull).2.SP = (cpu0.SP + 1) % 256
    ∧ (cpu0.pull).2.SP < 256
    ∧ (cpu0.pull).1 = cpu0.memory (0x100 + (cpu0.SP + 1) % 256)
    ∧ ((cpu0.push 0x1234).pull).1 = 0x1234 % 256
    ∧ ((cpu0.push 0x1234).pull).2.SP = cpu0.SP
    ∧ ((cpu0.push2 0x1234).pull2).1 = 0x1234 % 65536
    ∧ ((cpu0.push2 0x1234).pull2).2.SP = cpu0.SP
    ∧ (cpu0.push 0x1234).memory 0 = cpu0.memory 0
    ∧ (cpu0.push2 0x1234).memory 0 = cpu0.memory 0
    ∧ (cpu0.pull).2.memory 0 = cpu0.memory 0
    ∧ (cpu0.pull2).2.memory 0 = cpu0.memory 0 :=
  claim_C7 cpu0 0x1234 0 (by decide) (Or.inl (by norm_num))

theorem read_snd_do_NMI (s : CPU) (a : Nat) : ((s.read a).2).do_NMI = s.do_NMI := by
  unfold CPU.read
  split_ifs <;> rfl

theorem dma_do_NMI (page : Nat) : ∀ (l : List Nat) (s : CPU),
    (l.foldl (fun t i =>
      let r := t.read (page * 0x100 + i)
      logEvent r.2 (.ppuRegwOAMData r.1)) s).do_NMI = s.do_NMI := by
  intro l
  induction l with
  | nil => intro s; rfl
  | cons a as ih =>
    intro s
    simp only [List.foldl_cons]
    rw [ih]
    simp only [log_do_NMI, read_snd_do_NMI]

theorem write_do_NMI (v a : Nat) (s : CPU) : (CPU.write v a s).do_NMI = s.do_NMI := by
  unfold CPU.write
  split_ifs <;> first | rfl | (exact dma_do_NMI (v % 256 % 8) (List.range 256) s)

theorem interruptStep_do_NMI (s : CPU) :
    (s.interruptStep).do_NMI = if s.IRQ = true ∧ s.P &&& 4 = 0 then s.do_NMI else false := by
  unfold CPU.interruptStep
  split_ifs with h1 h2
  · simp only [CPU.push2, CPU.pushProcStatus]
    rw [read_rom _ 0xfffe (by norm_num)]
    simp only []
    rw [read_rom _ 0xffff (by norm_num)]
    simp only [push_do_NMI, log_do_NMI]
  · simp only [CPU.push2, CPU.pushProcStatus]
    rw [read_rom _ 0xfffa (by norm_num)]
    simp only []
    rw [read_rom _ 0xfffb (by norm_num)]
    simp only [push_do_NMI, log_do_NMI]
  · simpa using h2

/-- C8: an NMI pulse is consumed at most once.  `pull_NMI` latches the global
`do_NMI`; servicing an NMI in the run-loop interrupt check clears the latch;
once the latch is clear the interrupt check never services (or re-creates) an
NMI, and neither bus writes (including OAM DMA), bus reads, nor the cycle
advance ever set the latch — only `pull_NMI` does. -/
theorem claim_C8 (s : CPU) (v a : Nat) :
    (s.pull_NMI).do_NMI = true
    ∧ (s.do_NMI = false → (s.interruptStep).do_NMI = false)
    ∧ (¬(s.IRQ = true ∧ s.P &&& 4 = 0) → s.do_NMI = true → (s.interruptStep).do_NMI = false)
    ∧ ((s.interruptStep).do_NMI = true → s.do_NMI = true)
    ∧ (CPU.write v a s).do_NMI = s.do_NMI
    ∧ ((s.read a).2).do_NMI = s.do_NMI
    ∧ (s.advanceStep).do_NMI = s.do_NMI := by
  refine ⟨rfl, ?_, ?_, ?_, write_do_NMI v a s, read_snd_do_NMI s a, rfl⟩
  · intro h
    rw [interruptStep_do_NMI]
    split_ifs <;> simp [h]
  · intro hno _
    rw [interruptStep_do_NMI, if_neg hno]
  · intro h
    rw [interruptStep_do_NMI] at h
    split_ifs at h
    exact h

/-- C8 (witness): the latch theorem applied at `nmiCPU` (NMI latched, no IRQ,
so the check services and clears it) and at `cpu0` (`pull_NMI` latches). -/
theorem claim_C8_witness :
    (nmiCPU.interruptStep).do_NMI = false ∧ (cpu0.pull_NMI).do_NMI = true :=
  ⟨(claim_C8 nmiCPU 0 0).2.2.1 (by decide) (by decide), (claim_C8 cpu0 0 0).1⟩

/-- C9: `restore_state` after `get_state` restores exactly the captured
components — the registers P, A, X, Y, SP, PC and every one of the 2048
work-RAM bytes — while every non-captured component of the CPU being restored
(IRQ level, NMI latch, cycle counters, trace, `_done`, instruction latches)
is left as it was. -/
theorem claim_C9 (s t : CPU) (i : Nat) (hi : i < 0x800) (hb : s.memory i < 256) :
    (t.restore_state s.get_state).memory i = s.memory i
    ∧ (t.restore_state s.get_state).P = s.P
    ∧ (t.restore_state s.get_state).A = s.A
    ∧ (t.restore_state s.get_state).X = s.X
    ∧ (t.restore_state s.get_state).Y = s.Y
    ∧ (t.restore_state s.get_state).SP = s.SP
    ∧ (t.restore_state s.get_state).PC = s.PC
    ∧ (t.restore_state s.get_state).IRQ = t.IRQ
    ∧ (t.restore_state s.get_state).do_NMI = t.do_NMI
    ∧ (t.restore_state s.get_state).result_cycle = t.result_cycle
    ∧ (t.restore_state s.get_state).ticks = t.ticks
    ∧ (t.restore_state s.get_state).events = t.events
    ∧ (t.restore_state s.get_state).last_PC = t.last_PC
    ∧ (t.restore_state s.get_state).last_op = t.last_op
    ∧ (t.restore_state s.get_state)._done = t._done
    ∧ (t.restore_state s.get_state).env = t.env := by
  refine ⟨?_, rfl, rfl, rfl, rfl, rfl, rfl, rfl, rfl, rfl, rfl, rfl, rfl, rfl, rfl, rfl⟩
  show (if i < 0x800 then s.get_state.memory i else t.memory i) = s.memory i
  rw [if_pos hi]
  exact Nat.mod_eq_of_lt hb

/-- C9 (witness): the state round-trip theorem capturing `cpu0` and restoring
into the distinct state `nmiCPU`, checked at RAM index 5. -/
theorem claim_C9_witness :
    (nmiCPU.restore_state cpu0.get_state).memory 5 = cpu0.memory 5
    ∧ (nmiCPU.restore_state cpu0.get_state).P = cpu0.P
    ∧ (nmiCPU.restore_state cpu0.get_state).A = cpu0.A
    ∧ (nmiCPU.restore_state cpu0.get_state).X = cpu0.X
    ∧ (nmiCPU.restore_state cpu0.get_state).Y = cpu0.Y
    ∧ (nmiCPU.restore_state cpu0.get_state).SP = cpu0.SP
    ∧ (nmiCPU.restore_state cpu0.get_state).PC = cpu0.PC
    ∧ (nmiCPU.restore_state cpu0.get_state).IRQ = nmiCPU.IRQ
    ∧ (nmiCPU.restore_state cpu0.get_state).do_NMI = nmiCPU.do_NMI
    ∧ (nmiCPU.restore_state cpu0.get_state).result_cycle = nmiCPU.result_cycle
    ∧ (nmiCPU.restore_state cpu0.get_state).ticks = nmiCPU.ticks
    ∧ (nmiCPU.restore_state cpu0.get_state).events = nmiCPU.events
    ∧ (nmiCPU.restore_state cpu0.get_state).last_PC = nmiCPU.last_PC
    ∧ (nmiCPU.restore_state cpu0.get_state).last_op = nmiCPU.last_op
    ∧ (nmiCPU.restore_state cpu0.get_state)._done = nmiCPU._done
    ∧ (nmiCPU.restore_state cpu0.get_state).env = nmiCPU.env :=
  claim_C9 cpu0 nmiCPU 5 (by norm_num) (by decide)

/-- C10: after the `CPU::CPU` constructor runs, work RAM is not uniformly
zero: the bytes at `$0008`, `$0009`, `$000A`, `$000F`, `$01FC` are preset to
`$F7`, `$EF`, `$DF`, `$BF`, `$69`, whatever RAM held before. -/
theorem claim_C10 (base : CPU) :
    (CPU.init base).memory 0x008 = 0xf7
    ∧ (CPU.init base).memory 0x009 = 0xef
    ∧ (CPU.init base).memory 0x00a = 0xdf
    ∧ (CPU.init base).memory 0x00f = 0xbf
    ∧ (CPU.init base).memory 0x1fc = 0x69
    ∧ ∃ a, a < 0x800 ∧ (CPU.init base).memory a ≠ 0 := by
  refine ⟨?_, ?_, ?_, ?_, ?_, ⟨8, by norm_num, ?_⟩⟩ <;> simp [CPU.init]
